import Mathlib

/-!
The upload, dedup and resolve handlers of incolore.

A shallow embedding of `handlers/handlers.go` and `config/config.go` of
soyuka/incolore.  The two request handlers `GetIndex` and `CreateLink`, the
wrapper `Handler.ServeHTTP`, the helper `Exists` and the loader `GetConfig`
are translated statement by statement into pure functions; the handlers
pass the mutable state explicitly:

* the key-value store behind `env.Transport`,
* the file system below the upload directory,
* the `http.ResponseWriter` of the request.

Functions of external libraries (crypto/sha256, h2non/filetype, path/filepath,
net/http content sniffing) are parameters collected in `Libs`; the outcomes of
fallible system calls are chosen by a `Faults` record, so every theorem holds
for all library behaviours and all fault patterns unless it says otherwise.
-/

set_option linter.unusedVariables false
set_option linter.dupNamespace false

namespace Incolore

/-- Raw bytes (`[]byte`): every element stands for one octet. -/
abbrev Bytes := List Nat

/-- The bytes of an ASCII text, as written by `fmt.Fprintln` or `[]byte(s)`. -/
def stringBytes (s : String) : Bytes := s.toList.map Char.toNat

/-! ## External libraries -/

/-- The `types.MIME` value of h2non/filetype; only `Value` is read by the handlers. -/
structure MIME where
  Value : String
deriving DecidableEq, Repr

/-- The `types.Type` value of h2non/filetype returned by `filetype.Match`. -/
structure Kind where
  MIME : MIME
  Extension : String
deriving DecidableEq, Repr

/-- The value `filetype.Unknown`, that is `types.NewType("unknown", "")`. -/
def Unknown : Kind := ⟨⟨""⟩, "unknown"⟩

/-- Library functions the handlers call and whose code is outside the repository. -/
structure Libs where
  /-- The string `string(h[:])` for `h := sha256.Sum256(b)`: the content fingerprint as a store key. -/
  Sum256 : Bytes → String
  /-- The function `filetype.IsImage`. -/
  IsImage : Bytes → Bool
  /-- The function `filetype.Match` (its error result is discarded by both callers). -/
  Match : Bytes → Kind
  /-- The function `filepath.Join` applied to two elements. -/
  Join : String → String → String
  /-- The function `http.DetectContentType`, used by `ResponseWriter.Write` when no Content-Type is set. -/
  DetectContentType : Bytes → String

/-- The function `http.StatusText` on the status codes used by the handlers. -/
def StatusText (code : Nat) : String :=
  if code = 200 then "OK"
  else if code = 201 then "Created"
  else if code = 302 then "Found"
  else if code = 400 then "Bad Request"
  else if code = 404 then "Not Found"
  else if code = 413 then "Request Entity Too Large"
  else if code = 415 then "Unsupported Media Type"
  else if code = 500 then "Internal Server Error"
  else ""

def StatusOK : Nat := 200
def StatusCreated : Nat := 201
def StatusBadRequest : Nat := 400
def StatusNotFound : Nat := 404
def StatusRequestEntityTooLarge : Nat := 413
def StatusUnsupportedMediaType : Nat := 415
def StatusInternalServerError : Nat := 500
def MethodPost : String := "POST"

/-! ## Errors -/

/-- The struct `StatusError` of handlers.go. -/
structure StatusError where
  Code : Nat
  Err : String
deriving DecidableEq, Repr

/-- The function `makeStatusError`. -/
def makeStatusError (code : Nat) : StatusError :=
  { Code := code, Err := StatusText code }

/-- The method `StatusError.Error`. -/
def StatusError.Error (se : StatusError) : String := se.Err

/-- The method `StatusError.Status`. -/
def StatusError.Status (se : StatusError) : Nat := se.Code

/-- A Go `error` value as seen by the type switch of `ServeHTTP`: either it
implements the interface `Error` (only `StatusError` does) or it does not. -/
inductive GoError where
  | status (se : StatusError)
  | plain (msg : String)
deriving DecidableEq, Repr

/-! ## http.ResponseWriter -/

/-- A header map (`http.Header`) as an ordered list of lines. -/
abbrev Header := List (String × String)

/-- The method `Header.Get`: the first value stored under the key. -/
def Header.Get (h : Header) (key : String) : Option String := h.lookup key

/-- The method `Header.Add`: append a line. -/
def Header.Add (h : Header) (key value : String) : Header := h ++ [(key, value)]

/-- The method `Header.Set`: replace every line of the key by one line. -/
def Header.Set (h : Header) (key value : String) : Header :=
  h.filter (fun p => p.1 ≠ key) ++ [(key, value)]

/-- The server side of one response.  `header` is the map returned by
`w.Header()`; `status` and `sent` are the status line and the header lines
that go on the wire, fixed by the first `WriteHeader`; `body` is what has
been written after them. -/
structure ResponseWriter where
  header : Header
  wroteHeader : Bool
  status : Nat
  sent : Header
  body : Bytes
deriving DecidableEq, Repr

/-- The writer a new request starts with. -/
def ResponseWriter.fresh : ResponseWriter :=
  { header := [], wroteHeader := false, status := 0, sent := [], body := [] }

/-- The call `w.Header().Add(key, value)`. -/
def ResponseWriter.HeaderAdd (w : ResponseWriter) (key value : String) : ResponseWriter :=
  { w with header := w.header.Add key value }

/-- The call `w.Header().Set(key, value)`. -/
def ResponseWriter.HeaderSet (w : ResponseWriter) (key value : String) : ResponseWriter :=
  { w with header := w.header.Set key value }

/-- The call `w.WriteHeader(code)`: the first call fixes the status line and the header
lines; a later call is superfluous and changes nothing. -/
def ResponseWriter.WriteHeader (w : ResponseWriter) (code : Nat) : ResponseWriter :=
  if w.wroteHeader then w
  else { w with wroteHeader := true, status := code, sent := w.header }

/-- The call `w.Write(data)`: calls `WriteHeader(200)` when no status line was written
yet; when the header lines on the wire hold no Content-Type and this is the
first data, adds the one sniffed by `DetectContentType`; appends the data. -/
def ResponseWriter.Write (L : Libs) (w : ResponseWriter) (data : Bytes) : ResponseWriter :=
  let w := w.WriteHeader StatusOK
  let w :=
    if w.body = [] ∧ data ≠ [] ∧ w.sent.Get "Content-Type" = none then
      { w with sent := w.sent.Set "Content-Type" (L.DetectContentType data) }
    else w
  { w with body := w.body ++ data }

/-- The struct `http.Cookie` with the fields the handlers set. -/
structure Cookie where
  Name : String
  MaxAge : Int
  Secure : Bool
  HttpOnly : Bool
  SameSiteStrict : Bool
deriving DecidableEq, Repr

/-- The method `Cookie.String`: the Set-Cookie line of a cookie with an empty value. -/
def Cookie.String (c : Cookie) : String :=
  c.Name ++ "="
    ++ (if c.MaxAge > 0 then "; Max-Age=" ++ toString c.MaxAge
        else if c.MaxAge < 0 then "; Max-Age=0" else "")
    ++ (if c.HttpOnly then "; HttpOnly" else "")
    ++ (if c.Secure then "; Secure" else "")
    ++ (if c.SameSiteStrict then "; SameSite=Strict" else "")

/-- The function `http.SetCookie`. -/
def SetCookie (w : ResponseWriter) (cookie : Cookie) : ResponseWriter :=
  if cookie.String ≠ "" then w.HeaderAdd "Set-Cookie" cookie.String else w

/-- The function `http.Error`: sets the plain-text headers, writes the status line and the message. -/
def httpError (L : Libs) (w : ResponseWriter) (error : String) (code : Nat) : ResponseWriter :=
  let w := w.HeaderSet "Content-Type" "text/plain; charset=utf-8"
  let w := w.HeaderSet "X-Content-Type-Options" "nosniff"
  let w := w.WriteHeader code
  w.Write L (stringBytes (error ++ "\n"))

/-- The function `http.Redirect`: sets the Location header and writes the status line
(the short HTML body sent for GET requests is left out). -/
def Redirect (w : ResponseWriter) (url : String) (code : Nat) : ResponseWriter :=
  let w := w.HeaderSet "Location" url
  w.WriteHeader code

/-! ## Configuration, store, file system -/

/-- The struct `Config` of config/config.go. -/
structure Config where
  DB : String
  ShortenerHostname : String
  IdAlphabet : String
  IdLength : Int
  Port : String
  Directory : String
  MaxSize : Int
deriving DecidableEq, Repr

/-- Modelled from the spec: the Key-Value Store behind `env.Transport` (the
package `transports` is not among the sources).  "A durable mapping from
string key to string value; supports point lookups, point writes, and a
total-entry count."  The entries are kept as an association list with at
most one pair per key. -/
structure Transport where
  entries : List (String × String)
deriving DecidableEq, Repr

/-- Modelled from the spec: the store operation `get(key) -> value or "not found"`,
"pure lookup, no side effects".  In the Go signature `Get(key) (string, error)`
a missing key gives the empty string and an error, a present key gives its
value and no error. -/
def Transport.Get (t : Transport) (key : String) : String × Option String :=
  match t.entries.lookup key with
  | some value => (value, none)
  | none => ("", some "not found")

/-- Modelled from the spec: the store operation `put(key, value) -> success or failure`,
an "upsert".  The argument `fault` is the failure the backend reports, if
any; a failed put leaves the store as it was. -/
def Transport.Put (t : Transport) (key value : String) (fault : Option String) :
    Transport × Option String :=
  match fault with
  | some e => (t, some e)
  | none => ({ entries := (key, value) :: t.entries.filter (fun p => p.1 ≠ key) }, none)

/-- Modelled from the spec: the store operation `count() -> integer`, the
"total number of keys currently stored". -/
def Transport.Count (t : Transport) : Int × Option String :=
  ((t.entries.length : Int), none)

/-- The struct `Env` the handlers receive: the store and the configuration. -/
structure Env where
  Transport : Transport
  Config : Config
deriving DecidableEq, Repr

/-- The files on disk: path and content, at most one pair per path. -/
structure FS where
  files : List (String × Bytes)
deriving DecidableEq, Repr

/-- An error of package os: `os.ErrNotExist` or any other one. -/
inductive OsError where
  | ErrNotExist
  | other (msg : String)
deriving DecidableEq, Repr

/-- The call `os.Stat(name)`, reduced to its error result: `fault` is an error
of the system call other than a missing file. -/
def FS.Stat (fs : FS) (name : String) (fault : Option String) : Option OsError :=
  match fault with
  | some e => some (OsError.other e)
  | none => if (fs.files.lookup name).isSome then none else some OsError.ErrNotExist

/-- The call `ioutil.ReadFile(name)`: fails when there is no file at the path. -/
def FS.ReadFile (fs : FS) (name : String) : Except OsError Bytes :=
  match fs.files.lookup name with
  | some data => .ok data
  | none => .error OsError.ErrNotExist

/-- The call `ioutil.WriteFile(name, data, 0644)`: creates the file or replaces
its content.  The empty path cannot be opened; `fault` is any other failure
of the system call; a failed write leaves the files as they were. -/
def FS.WriteFile (fs : FS) (name : String) (data : Bytes) (fault : Option String) :
    FS × Option String :=
  if name = "" then (fs, some "open : no such file or directory")
  else
    match fault with
    | some e => (fs, some e)
    | none => ({ files := (name, data) :: fs.files.filter (fun p => p.1 ≠ name) }, none)

/-- The function `Exists` of handlers.go. -/
def Exists (fs : FS) (name : String) (fault : Option String) : Bool × Option OsError :=
  match fs.Stat name fault with
  | none => (true, none)
  | some err =>
    if err = OsError.ErrNotExist then (false, none)
    else (false, some err)

deriving instance DecidableEq for Except

/-- The outcomes of the fallible calls of one request, chosen by the
environment: the alphabet indices drawn by the identifier generator (`none`
when the entropy source fails) and the failure, if any, of `os.Stat`,
`ioutil.WriteFile` and the two `Transport.Put` calls. -/
structure Faults where
  picks : Option (List Nat)
  statErr : Option String
  writeErr : Option String
  putHashErr : Option String
  putIdErr : Option String
deriving DecidableEq, Repr

/-- No failure anywhere; the generator draws the given indices. -/
def noFaults (picks : List Nat) : Faults :=
  { picks := some picks, statErr := none, writeErr := none,
    putHashErr := none, putIdErr := none }

/-- The function `gonanoid.Generate` (library matoous/go-nanoid), after the
Identifier Generator contract: it rejects an empty alphabet, one of more than
255 characters and a size that is not positive, fails when the entropy source
fails, and otherwise returns `size` characters of the alphabet, the j-th one
at the j-th drawn index. -/
def Generate (alphabet : String) (size : Int) (picks : Option (List Nat)) :
    Except String String :=
  let chars := alphabet.toList
  if chars.length = 0 ∨ chars.length > 255 then
    .error "alphabet must not empty and contain no more than 255 chars"
  else if size ≤ 0 then
    .error "size must be positive integer"
  else
    match picks with
    | none => .error "entropy source unavailable"
    | some ps =>
      .ok (String.mk ((List.range size.toNat).map
        (fun j => chars.getD (ps.getD j 0 % chars.length) default)))

/-! ## Requests -/

/-- The struct `multipart.FileHeader`: the handlers read the file name only. -/
structure FileHeader where
  Filename : String
deriving DecidableEq, Repr

/-- The successful result of `r.FormFile("f")`: the header and the file; `file` is
the content `io.Copy` reads from it, `none` when reading fails. -/
structure FormFile where
  handler : FileHeader
  file : Option Bytes
deriving DecidableEq, Repr

/-- The part of `http.Request` the handlers read: method, `URL.Path`, the names
of the cookies it carries and the form file `f` (`none` when `FormFile`
returns an error). -/
structure Request where
  Method : String
  Path : String
  cookies : List String
  form : Option FormFile
deriving DecidableEq, Repr

/-- The call `r.Cookie(name)`, reduced to its error result. -/
def Request.Cookie (r : Request) (name : String) : Option String :=
  if name ∈ r.cookies then none else some "http: named cookie not present"

/-- Removes the first slash (character 47) from a list of characters. -/
def dropFirstSlash : List Char → List Char
  | [] => []
  | c :: cs => if c = Char.ofNat 47 then cs else c :: dropFirstSlash cs

/-- The call `strings.Replace(s, "/", "", 1)`. -/
def ReplaceSlash (s : String) : String := String.mk (dropFirstSlash s.toList)

/-- The call `fmt.Sprintf("%s/%s", a, b)`. -/
def Sprintf (a b : String) : String := a ++ "/" ++ b

/-- The constant `cookieName`. -/
def cookieName : String := "incolore"

/-- A write attempted by a handler: a file write or a store put. -/
inductive Effect where
  | fileWrite (path : String) (data : Bytes)
  | storePut (key value : String)
deriving DecidableEq, Repr

/-- The store has no entry under the key. -/
def Transport.Absent (t : Transport) (key : String) : Prop := t.entries.lookup key = none

instance (t : Transport) (key : String) : Decidable (t.Absent key) := by
  unfold Transport.Absent; infer_instance

/-- What a handler leaves behind: its `error` result, the store, the files,
the response writer and the writes it attempted, in order. -/
structure Result where
  err : Option GoError
  env : Env
  fs : FS
  w : ResponseWriter
  log : List Effect
deriving DecidableEq, Repr

/-! ## Handlers -/

/-- The function `CreateLink` of handlers.go (lines 129-198).  Every `return`
of the source is one `Result`; `log` lists the calls of `ioutil.WriteFile`
and `Transport.Put` made before it. -/
def CreateLink (L : Libs) (o : Faults) (env : Env) (fs : FS) (w : ResponseWriter)
    (r : Request) : Result :=
  match r.form with
  | none =>
    { err := some (.status (makeStatusError StatusBadRequest)), env := env, fs := fs, w := w, log := [] }
  | some ⟨handler, file⟩ =>
  match file with
  | none =>
    { err := some (.status (makeStatusError StatusBadRequest)), env := env, fs := fs, w := w, log := [] }
  | some buf =>
  let hashStr := L.Sum256 buf
  let (existingId, _) := env.Transport.Get hashStr
  if existingId ≠ "" then
    { err := none, env := env, fs := fs,
      w := Redirect w (Sprintf env.Config.ShortenerHostname existingId) 302, log := [] }
  else if ¬ L.IsImage buf then
    { err := some (.status (makeStatusError StatusUnsupportedMediaType)),
      env := env, fs := fs, w := w, log := [] }
  else
  let kind := L.Match buf
  if kind = Unknown then
    { err := some (.status (makeStatusError StatusBadRequest)), env := env, fs := fs, w := w, log := [] }
  else
  match Generate env.Config.IdAlphabet env.Config.IdLength o.picks with
  | .error e =>
    { err := some (.status ⟨StatusInternalServerError, e⟩), env := env, fs := fs, w := w, log := [] }
  | .ok id =>
  let size : Int := (buf.length : Int)
  if size ≤ 0 ∨ size > env.Config.MaxSize then
    { err := some (.status (makeStatusError StatusRequestEntityTooLarge)),
      env := env, fs := fs, w := w, log := [] }
  else
  let destination := L.Join env.Config.Directory handler.Filename
  -- line 175: `exists, _ := Exists(destination)`
  let (exists_, _) := Exists fs destination o.statErr
  let destination :=
    if exists_ then L.Join env.Config.Directory (id ++ "-" ++ handler.Filename) else destination
  let (fs1, err) := fs.WriteFile destination buf o.writeErr
  match err with
  | some e =>
    { err := some (.status ⟨StatusInternalServerError, e⟩), env := env, fs := fs1, w := w,
      log := [.fileWrite destination buf] }
  | none =>
  let (t1, err) := env.Transport.Put hashStr id o.putHashErr
  match err with
  | some e =>
    { err := some (.status ⟨StatusInternalServerError, e⟩),
      env := { env with Transport := t1 }, fs := fs1, w := w,
      log := [.fileWrite destination buf, .storePut hashStr id] }
  | none =>
  let (t2, err) := t1.Put id destination o.putIdErr
  match err with
  | some e =>
    { err := some (.status ⟨StatusInternalServerError, e⟩),
      env := { env with Transport := t2 }, fs := fs1, w := w,
      log := [.fileWrite destination buf, .storePut hashStr id, .storePut id destination] }
  | none =>
    { err := none, env := { env with Transport := t2 }, fs := fs1,
      w := Redirect w (Sprintf env.Config.ShortenerHostname id) 302,
      log := [.fileWrite destination buf, .storePut hashStr id, .storePut id destination] }

/-- The handler ended without error in `http.Redirect` to the URL of identifier `i`. -/
def RedirectsTo (hostname : String) (R : Result) (i : String) : Prop :=
  R.err = none ∧ R.w.header.Get "Location" = some (Sprintf hostname i)

instance (hostname : String) (R : Result) (i : String) : Decidable (RedirectsTo hostname R i) := by
  unfold RedirectsTo; infer_instance

/-- The page `Index` writes: the static markup is abridged to the two places
where the host name and the count are spliced in. -/
def indexPage (hostname count : String) : String :=
  "<!DOCTYPE html><html lang=\"en\"><body><p>POST <code>" ++ hostname
    ++ "</code> with multipart/form-data with f.</p><p>" ++ count
    ++ " images online</p></body></html>"

/-- The function `Index` of handlers.go. -/
def Index (L : Libs) (_o : Faults) (env : Env) (fs : FS) (w : ResponseWriter)
    (_r : Request) : Result :=
  let (count, _) := env.Transport.Count
  let w := w.HeaderSet "Content-Type" "text/html"
  let w := w.HeaderSet "Cache-Control" "public, max-age=86400"
  let index := indexPage env.Config.ShortenerHostname (toString count)
  let w := w.Write L (stringBytes index)
  { err := none, env := env, fs := fs, w := w, log := [] }

/-- The function `GetIndex` of handlers.go (lines 87-126). -/
def GetIndex (L : Libs) (o : Faults) (env : Env) (fs : FS) (w : ResponseWriter)
    (r : Request) : Result :=
  if r.Method = MethodPost then
    let cookie : Cookie :=
      { Name := cookieName, MaxAge := 0, SameSiteStrict := true, Secure := true, HttpOnly := true }
    let w := SetCookie w cookie
    CreateLink L o env fs w r
  else
  let key := ReplaceSlash r.Path
  if key ≠ "" then
    -- line 97: `_, err := r.Cookie(cookieName)`
    let err := r.Cookie cookieName
    -- line 98: `source, err := env.Transport.Get(key)` assigns `err` again
    let (source, err) := env.Transport.Get key
    if source = "" then
      { err := some (.status (makeStatusError StatusNotFound)), env := env, fs := fs, w := w, log := [] }
    else
    let w :=
      if err = none then
        let cookie : Cookie :=
          { Name := cookieName, MaxAge := -1, SameSiteStrict := true, Secure := true, HttpOnly := true }
        let w := SetCookie w cookie
        w.WriteHeader StatusCreated
      else
        w.WriteHeader StatusOK
    match fs.ReadFile source with
    | .error _ =>
      { err := some (.status (makeStatusError StatusNotFound)), env := env, fs := fs, w := w, log := [] }
    | .ok buf =>
    let kind := L.Match buf
    let w := w.HeaderAdd "Content-Type" kind.MIME.Value
    let w := w.Write L buf
    { err := none, env := env, fs := fs, w := w, log := [] }
  else
    Index L o env fs w r

/-- The type of the field `Handler.Handler`, with the state passed explicitly. -/
abbrev HandlerFunc := Libs → Faults → Env → FS → ResponseWriter → Request → Result

/-- The struct `Handler` of handlers.go. -/
structure Handler where
  Env : Env
  Handler : HandlerFunc

/-- The method `Handler.ServeHTTP` of handlers.go. -/
def Handler.ServeHTTP (h : Incolore.Handler) (L : Libs) (o : Faults) (fs : FS) (w : ResponseWriter)
    (r : Request) : Result :=
  let res := h.Handler L o h.Env fs w r
  match res.err with
  | none => res
  | some (.status e) => { res with w := httpError L res.w e.Error e.Status }
  | some (.plain _) =>
    { res with w := httpError L res.w (StatusText StatusInternalServerError) StatusInternalServerError }

/-! ## A concrete environment for evaluating the handlers

The library functions below agree with the real ones on the inputs used in
the examples: JPEG, PNG and TIFF signatures for h2non/filetype, the sniffing
table of net/http (which knows JPEG and PNG but not TIFF), `filepath.Join` on
clean relative paths.  `sampleSum256` stands for SHA-256: it is injective, so
different payloads have different fingerprints. -/

/-- A stand-in for the SHA-256 fingerprint: the payload itself, read as characters. -/
def sampleSum256 (b : Bytes) : String := String.mk (b.map Char.ofNat)

/-- The JPEG signature `FF D8 FF`. -/
def isJpeg (b : Bytes) : Bool := b.take 3 == [0xFF, 0xD8, 0xFF]

/-- The PNG signature `89 50 4E 47`. -/
def isPng (b : Bytes) : Bool := b.take 4 == [0x89, 0x50, 0x4E, 0x47]

/-- The TIFF signature `49 49 2A 00` (little-endian) in a buffer of more than ten bytes. -/
def isTiff (b : Bytes) : Bool := decide (10 < b.length) && b.take 4 == [0x49, 0x49, 0x2A, 0x00]

/-- The function `filetype.IsImage` on JPEG, PNG and TIFF signatures. -/
def sampleIsImage (b : Bytes) : Bool := isJpeg b || isPng b || isTiff b

/-- The function `filetype.Match` on JPEG, PNG and TIFF signatures. -/
def sampleMatch (b : Bytes) : Kind :=
  if isJpeg b then ⟨⟨"image/jpeg"⟩, "jpg"⟩
  else if isPng b then ⟨⟨"image/png"⟩, "png"⟩
  else if isTiff b then ⟨⟨"image/tiff"⟩, "tif"⟩
  else Unknown

/-- The function `http.DetectContentType` on JPEG and PNG signatures; other binary data
is `application/octet-stream`. -/
def sampleDetectContentType (b : Bytes) : String :=
  if isJpeg b then "image/jpeg"
  else if isPng b then "image/png"
  else if b.all (fun c => decide (32 ≤ c ∧ c < 127) || c == 10) then "text/plain; charset=utf-8"
  else "application/octet-stream"

/-- The function `filepath.Join` on a clean directory and a plain file name. -/
def sampleJoin (dir name : String) : String := dir ++ "/" ++ name

/-- The concrete library functions. -/
def sampleLibs : Libs :=
  { Sum256 := sampleSum256, IsImage := sampleIsImage, Match := sampleMatch,
    Join := sampleJoin, DetectContentType := sampleDetectContentType }

/-- The default configuration of config.go, with the upload directory spelled `upload`. -/
def sampleConfig : Config :=
  { DB := "bolt://data.bolt", ShortenerHostname := "http://localhost:5377",
    IdAlphabet := "0123456789abcdefghijkmnopqrstuvwxyzABCDEFGHJKLMNOPQRSTUVWXYZ",
    IdLength := 12, Port := "5377", Directory := "upload", MaxSize := 10000000 }

/-- An empty store with the default configuration. -/
def emptyEnv : Env := { Transport := ⟨[]⟩, Config := sampleConfig }

/-- An empty upload directory. -/
def emptyFS : FS := ⟨[]⟩

/-- A POST request uploading `data` under `name`. -/
def upload (name : String) (data : Bytes) : Request :=
  { Method := "POST", Path := "/", cookies := [], form := some ⟨⟨name⟩, some data⟩ }

/-- A GET request for `/id`, with or without the session cookie. -/
def resolve (id : String) (withCookie : Bool) : Request :=
  { Method := "GET", Path := "/" ++ id, cookies := if withCookie then [cookieName] else [],
    form := none }

/-- Three small JPEG payloads and a TIFF one. -/
def jpegA : Bytes := [0xFF, 0xD8, 0xFF, 0x01]
def jpegB : Bytes := [0xFF, 0xD8, 0xFF, 0x02]
def jpegC : Bytes := [0xFF, 0xD8, 0xFF, 0x03]
def tiffA : Bytes := [0x49, 0x49, 0x2A, 0x00, 0x08, 0x00, 0x00, 0x00, 0x00, 0x00, 0x00, 0x00]

/-- A text payload of five bytes (`hello`). -/
def textHello : Bytes := [104, 101, 108, 108, 111]

/-- The default configuration with a size ceiling of four bytes. -/
def smallEnv : Env := { Transport := ⟨[]⟩, Config := { sampleConfig with MaxSize := 4 } }

/-- A request in which the second store write fails. -/
def putIdFails : Faults := { noFaults [1, 2, 3] with putIdErr := some "put failed" }

/-- A request in which writing the file fails. -/
def writeFails : Faults := { noFaults [1, 2, 3] with writeErr := some "disk full" }

/-- A store whose entry `abc` points at a file that is not on disk. -/
def danglingEnv : Env := { Transport := ⟨[("abc", "upload/cat.jpg")]⟩, Config := sampleConfig }

/-- A store and a disk holding one TIFF image under the identifier `abc`. -/
def tiffEnv : Env := { Transport := ⟨[("abc", "upload/scan.tif")]⟩, Config := sampleConfig }
def tiffFS : FS := ⟨[("upload/scan.tif", tiffA)]⟩

/-- Two uploads of different images for which the generator draws the same identifier. -/
def collideA : Result :=
  CreateLink sampleLibs (noFaults []) emptyEnv emptyFS ResponseWriter.fresh (upload "a.jpg" jpegA)
def collideB : Result :=
  CreateLink sampleLibs (noFaults []) collideA.env collideA.fs ResponseWriter.fresh
    (upload "b.jpg" jpegB)

/-- Three uploads of different images with three different identifiers; the
first file name starts with the identifier drawn for the third upload. -/
def namesA : Result :=
  CreateLink sampleLibs (noFaults [1]) emptyEnv emptyFS ResponseWriter.fresh
    (upload "000000000000-x.jpg" jpegA)
def namesB : Result :=
  CreateLink sampleLibs (noFaults [2]) namesA.env namesA.fs ResponseWriter.fresh
    (upload "x.jpg" jpegB)
def namesC : Result :=
  CreateLink sampleLibs (noFaults []) namesB.env namesB.fs ResponseWriter.fresh
    (upload "x.jpg" jpegC)

/-- An upload whose second store write fails, followed by the same upload without failure. -/
def retryA : Result :=
  CreateLink sampleLibs putIdFails emptyEnv emptyFS ResponseWriter.fresh (upload "cat.png" jpegA)
def retryB : Result :=
  CreateLink sampleLibs (noFaults [4, 5, 6]) retryA.env retryA.fs ResponseWriter.fresh
    (upload "cat.png" jpegA)

/-- A JPEG payload of five bytes, above the ceiling of `smallEnv`. -/
def jpegBig : Bytes := [0xFF, 0xD8, 0xFF, 0x01, 0x02]

/-- A first upload of `jpegA` as `cat.png` with the identifier `123000000000`. -/
def firstUpload : Result :=
  CreateLink sampleLibs (noFaults [1, 2, 3]) emptyEnv emptyFS ResponseWriter.fresh
    (upload "cat.png" jpegA)

/-! ## Configuration loading (config/config.go) -/

/-- The value of a decimal digit character, `none` for any other character. -/
def digitValue (c : Char) : Option Nat :=
  if 48 ≤ c.toNat ∧ c.toNat ≤ 57 then some (c.toNat - 48) else none

/-- The number spelled by a list of decimal digits, `none` when the list is
empty or holds another character. -/
def parseDigits : List Char → Option Nat
  | [] => none
  | cs => cs.foldl (fun acc c => acc.bind (fun n => (digitValue c).map (fun d => n * 10 + d)))
      (some 0)

/-- The function `strconv.ParseInt(s, 10, bitSize)`: an optional sign followed
by decimal digits.  A string that is empty or malformed gives 0 and a syntax
error; a number outside the range of the bit size gives the nearest bound and
a range error. -/
def ParseInt (s : String) (bitSize : Nat) : Int × Option String :=
  if s = "" then (0, some "invalid syntax")
  else
    let negative := s.toList.head? = some (Char.ofNat 45)
    let digits :=
      if s.toList.head? = some (Char.ofNat 43) ∨ s.toList.head? = some (Char.ofNat 45) then
        s.toList.tail
      else s.toList
    match parseDigits digits with
    | none => (0, some "invalid syntax")
    | some un =>
      let cutoff : Nat := 2 ^ (bitSize - 1)
      if ¬ negative ∧ un ≥ cutoff then ((cutoff : Int) - 1, some "value out of range")
      else if negative ∧ un > cutoff then (-(cutoff : Int), some "value out of range")
      else (if negative then -(un : Int) else (un : Int), none)

/-- The function `GetConfig` of config/config.go.  The argument `Getenv` is
`os.Getenv`: the value of an environment variable, the empty string when it
is unset. -/
def GetConfig (Getenv : String → String) : Config :=
  let dbPath := Getenv "INCOLORE_DB"
  let dbPath := if dbPath = "" then "bolt://data.bolt" else dbPath
  let shortenerHostname := Getenv "INCOLORE_HOSTNAME"
  let shortenerHostname :=
    if shortenerHostname = "" then "http://localhost:5377" else shortenerHostname
  let port := Getenv "INCOLORE_PORT"
  let port := if port = "" then "5377" else port
  let (idLength, err) := ParseInt (Getenv "INCOLORE_ID_LENGTH") 32
  let idLength := if idLength = 0 ∨ err ≠ none then 12 else idLength
  let idAlphabet := Getenv "INCOLORE_ID_ALPHABET"
  let idAlphabet :=
    if idAlphabet = "" then "0123456789abcdefghijkmnopqrstuvwxyzABCDEFGHJKLMNOPQRSTUVWXYZ"
    else idAlphabet
  let uploadDirectory := Getenv "INCOLORE_DIRECTORY"
  let uploadDirectory := if uploadDirectory = "" then "./upload" else uploadDirectory
  let (maxSize, err) := ParseInt (Getenv "INCOLORE_MAX_SIZE") 32
  let maxSize := if maxSize = 0 ∨ err ≠ none then 10000000 else maxSize
  { ShortenerHostname := shortenerHostname,
    IdLength := idLength,
    IdAlphabet := idAlphabet,
    Port := port,
    DB := dbPath,
    Directory := uploadDirectory,
    MaxSize := maxSize }

/-- An environment in which no variable is set. -/
def noEnvironment : String → String := fun _ => ""

/-- An environment that sets the identifier alphabet and length only. -/
def hexEnvironment : String → String := fun name =>
  if name = "INCOLORE_ID_ALPHABET" then "0123456789abcdef"
  else if name = "INCOLORE_ID_LENGTH" then "4"
  else ""

/-! ## The link-record invariant -/

/-- The invariant of the link records: every value stored under a fingerprint
key (the key `Sum256 b` of some payload `b`) is itself a key of the store. -/
def LinkInvariant (L : Libs) (t : Transport) : Prop :=
  ∀ (b : Bytes) (i : String),
    t.entries.lookup (L.Sum256 b) = some i → (t.entries.lookup i).isSome = true

/-- The sample libraries with fingerprints marked by a scheme name, as a
store would hold them when fingerprints and identifiers are kept apart. -/
def taggedLibs : Libs :=
  { sampleLibs with Sum256 := fun b => "sha256:" ++ sampleSum256 b }

/-- The contract between the two entry points of h2non/filetype: `IsImage`
runs the image matchers, `Match` runs every registered matcher, the image
matchers among them, so a buffer that `IsImage` accepts gets a type from
`Match`. -/
def Libs.MatchNamesImages (L : Libs) : Prop :=
  ∀ b : Bytes, L.IsImage b = true → L.Match b ≠ Unknown

/-! ## An identifier that is a fingerprint string

Under `sampleSum256` the fingerprint of the three-byte JPEG `FF D8 FF` is
the string of the characters 255, 216, 255.  With an identifier alphabet of
the characters 255 and 216 and an identifier length of three, the generator
can draw exactly that string. -/

/-- The JPEG signature alone. -/
def jpegTiny : Bytes := [0xFF, 0xD8, 0xFF]

/-- An empty store with the alphabet of the characters 255 and 216 and identifiers of length three. -/
def clashEnv : Env :=
  { Transport := ⟨[]⟩,
    Config := { sampleConfig with
      IdAlphabet := String.mk [Char.ofNat 0xFF, Char.ofNat 0xD8], IdLength := 3 } }

/-- The identifier drawn by the picks 0, 1, 0: the fingerprint string of `jpegTiny`. -/
def clashId : String := String.mk [Char.ofNat 0xFF, Char.ofNat 0xD8, Char.ofNat 0xFF]

/-- The upload of `jpegTiny` whose identifier is its own fingerprint string,
followed by an upload of the same bytes under another name. -/
def clashA : Result :=
  CreateLink sampleLibs (noFaults [0, 1, 0]) clashEnv emptyFS ResponseWriter.fresh
    (upload "cat.jpg" jpegTiny)
def clashB : Result :=
  CreateLink sampleLibs (noFaults [1, 1, 1]) clashA.env clashA.fs ResponseWriter.fresh
    (upload "cat2.jpg" jpegTiny)

/-- A directory in which `x.jpg` is taken: the state after `namesB`, and a
further upload of `jpegC` as `x.jpg` with the identifier `300000000000`. -/
def namesD : Result :=
  CreateLink sampleLibs (noFaults [3]) namesB.env namesB.fs ResponseWriter.fresh
    (upload "x.jpg" jpegC)

/-! ## Lemmas on association lists, strings and the identifier generator -/

theorem lookup_filter_ne {β : Type} (l : List (String × β)) (k k1 : String) (h : k1 ≠ k) :
    (l.filter (fun p => p.1 ≠ k)).lookup k1 = l.lookup k1 := by
  induction l with
  | nil => rfl
  | cons p l ih =>
    obtain ⟨a, b⟩ := p
    by_cases hak : a = k
    · subst hak
      have hne : (k1 == a) = false := by simpa using h
      simpa [List.filter_cons, List.lookup_cons, hne] using ih
    · by_cases h1 : k1 = a
      · subst h1
        simp [List.filter_cons, List.lookup_cons, hak]
      · have hne : (k1 == a) = false := by simpa using h1
        simpa [List.filter_cons, List.lookup_cons, hak, hne] using ih

theorem Get_Put_same (t : Transport) (k v : String) :
    (t.Put k v none).1.Get k = (v, none) := by
  simp [Transport.Put, Transport.Get, List.lookup_cons]

theorem Get_Put_other (t : Transport) (k v k1 : String) (h : k1 ≠ k) :
    (t.Put k v none).1.Get k1 = t.Get k1 := by
  have hne : (k1 == k) = false := by simpa using h
  have hf := lookup_filter_ne t.entries k k1 h
  simp only [Transport.Put, Transport.Get, List.lookup_cons, hne, hf]

theorem lookup_Put_other (t : Transport) (k v k1 : String) (f : Option String) (h : k1 ≠ k) :
    (t.Put k v f).1.entries.lookup k1 = t.entries.lookup k1 := by
  have hne : (k1 == k) = false := by simpa using h
  have hf := lookup_filter_ne t.entries k k1 h
  cases f <;> simp only [Transport.Put, List.lookup_cons, hne, hf]

theorem Absent_Get (t : Transport) (key : String) (h : t.Absent key) :
    t.Get key = ("", some "not found") := by
  unfold Transport.Absent at h
  simp [Transport.Get, h]

theorem ReadFile_WriteFile (fs : FS) (name : String) (data : Bytes) (f : Option String)
    (h : (fs.WriteFile name data f).2 = none) :
    (fs.WriteFile name data f).1.ReadFile name = .ok data ∧ name ≠ "" := by
  unfold FS.WriteFile at *
  by_cases hn : name = ""
  · simp [hn] at h
  · cases f with
    | some e => simp [hn] at h
    | none => simp [hn, FS.ReadFile, List.lookup_cons]

theorem WriteFile_fault (fs : FS) (name : String) (data : Bytes) (e : String) :
    (fs.WriteFile name data (some e)).1 = fs
      ∧ ∃ msg, (fs.WriteFile name data (some e)).2 = some msg := by
  unfold FS.WriteFile
  by_cases hn : name = ""
  · simp [hn]
  · simp [hn]

theorem Exists_eq (fs : FS) (name : String) :
    (Exists fs name none).1 = (fs.files.lookup name).isSome := by
  unfold Exists FS.Stat
  cases hl : fs.files.lookup name <;> simp

/-- An identifier the generator returns is never the empty string. -/
theorem Generate_ne_empty (alphabet : String) (size : Int) (picks : Option (List Nat))
    (id : String) (h : Generate alphabet size picks = .ok id) : id ≠ "" := by
  unfold Generate at h
  simp only at h
  split at h
  · cases h
  · split at h
    · cases h
    · rename_i hsize
      cases picks with
      | none => cases h
      | some ps =>
        simp only [Except.ok.injEq] at h
        intro hid
        rw [hid] at h
        have hl := congrArg (fun s => s.data.length) h
        simp at hl
        omega

theorem Sprintf_inj (a b c : String) (h : Sprintf a b = Sprintf a c) : b = c := by
  unfold Sprintf at h
  have hd := congrArg String.data h
  simp only [String.data_append, List.append_assoc] at hd
  exact String.ext (List.append_cancel_left (List.append_cancel_left hd))

theorem ReplaceSlash_slash (i : String) : ReplaceSlash ("/" ++ i) = i := by
  unfold ReplaceSlash
  have : ("/" ++ i).toList = Char.ofNat 47 :: i.toList := by
    simp [String.toList, String.data_append]
  rw [this]
  simp [dropFirstSlash]

/-! ## Lemmas on the response writer -/

theorem Get_Set (h : Header) (key value : String) : (h.Set key value).Get key = some value := by
  unfold Header.Set Header.Get
  induction h with
  | nil => simp [List.lookup_cons]
  | cons p l ih =>
    obtain ⟨a, b⟩ := p
    by_cases hak : a = key
    · subst hak
      simpa [List.filter_cons] using ih
    · have hne : (key == a) = false := by
        simpa using (fun h1 : key = a => hak h1.symm)
      simpa [List.filter_cons, hak, List.lookup_cons, hne] using ih

theorem Redirect_Location (w : ResponseWriter) (url : String) (code : Nat) :
    (Redirect w url code).header.Get "Location" = some url := by
  unfold Redirect ResponseWriter.WriteHeader ResponseWriter.HeaderSet
  by_cases hw : w.wroteHeader = true <;> simp [hw, Get_Set]

theorem WriteHeader_body (w : ResponseWriter) (code : Nat) :
    (w.WriteHeader code).body = w.body := by
  unfold ResponseWriter.WriteHeader
  split <;> rfl

theorem WriteHeader_wrote (w : ResponseWriter) (code : Nat) (hw : w.wroteHeader = true) :
    w.WriteHeader code = w := by
  unfold ResponseWriter.WriteHeader
  simp [hw]

theorem SetCookie_body (w : ResponseWriter) (c : Cookie) : (SetCookie w c).body = w.body := by
  unfold SetCookie ResponseWriter.HeaderAdd
  split <;> rfl

theorem Write_body (L : Libs) (w : ResponseWriter) (data : Bytes) :
    (w.Write L data).body = w.body ++ data := by
  have hwh : (w.WriteHeader StatusOK).body = w.body := WriteHeader_body w StatusOK
  unfold ResponseWriter.Write
  simp only
  split <;> simp only [hwh]

theorem Write_status (L : Libs) (w : ResponseWriter) (data : Bytes) (hw : w.wroteHeader = true) :
    (w.Write L data).status = w.status ∧ (w.Write L data).wroteHeader = true := by
  unfold ResponseWriter.Write
  simp only [WriteHeader_wrote w _ hw]
  split <;> exact ⟨rfl, hw⟩

/-- Once the status line is written, `http.Error` cannot change it. -/
theorem httpError_status (L : Libs) (w : ResponseWriter) (msg : String) (code : Nat)
    (hw : w.wroteHeader = true) : (httpError L w msg code).status = w.status := by
  unfold httpError
  simp only
  have h1 : ((w.HeaderSet "Content-Type" "text/plain; charset=utf-8").HeaderSet
      "X-Content-Type-Options" "nosniff").wroteHeader = true := hw
  rw [WriteHeader_wrote _ _ h1]
  exact (Write_status L _ _ h1).1

/-! ## The two ways `CreateLink` succeeds -/

/-- Dedup hit: the fingerprint is in the store, so the handler redirects to
the stored identifier and touches nothing. -/
theorem CreateLink_hit (L : Libs) (o : Faults) (env : Env) (fs : FS) (w : ResponseWriter)
    (r : Request) (h : FileHeader) (buf : Bytes)
    (hr : r.form = some ⟨h, some buf⟩)
    (hget : (env.Transport.Get (L.Sum256 buf)).1 ≠ "") :
    CreateLink L o env fs w r =
      { err := none, env := env, fs := fs,
        w := Redirect w (Sprintf env.Config.ShortenerHostname
          (env.Transport.Get (L.Sum256 buf)).1) 302,
        log := [] } := by
  generalize hg : env.Transport.Get (L.Sum256 buf) = g at hget
  obtain ⟨e, ge⟩ := g
  simp only at hget
  simp [CreateLink, hr, hg, hget]

/-- New content: a successful call has generated an identifier, written the
file at a non-empty path and recorded both store entries. -/
theorem CreateLink_fresh (L : Libs) (o : Faults) (env : Env) (fs : FS) (w : ResponseWriter)
    (r : Request) (h : FileHeader) (buf : Bytes)
    (hr : r.form = some ⟨h, some buf⟩)
    (hget : (env.Transport.Get (L.Sum256 buf)).1 = "")
    (hok : (CreateLink L o env fs w r).err = none) :
    ∃ id dest, Generate env.Config.IdAlphabet env.Config.IdLength o.picks = .ok id
      ∧ dest ≠ "" ∧
      CreateLink L o env fs w r =
        { err := none,
          env := { env with Transport :=
            ((env.Transport.Put (L.Sum256 buf) id none).1.Put id dest none).1 },
          fs := { files := (dest, buf) :: fs.files.filter (fun p => p.1 ≠ dest) },
          w := Redirect w (Sprintf env.Config.ShortenerHostname id) 302,
          log := [.fileWrite dest buf, .storePut (L.Sum256 buf) id, .storePut id dest] } := by
  generalize hg : env.Transport.Get (L.Sum256 buf) = g at hget
  obtain ⟨e, ge⟩ := g
  simp only at hget
  subst hget
  unfold CreateLink at hok ⊢
  simp only [hr, hg] at hok ⊢
  by_cases himg : L.IsImage buf = true
  swap
  · simp [himg] at hok
  by_cases hk : L.Match buf = Unknown
  · simp [himg, hk] at hok
  cases hgen : Generate env.Config.IdAlphabet env.Config.IdLength o.picks with
  | error e => simp [himg, hk, hgen] at hok
  | ok id =>
    simp only [himg, hk, hgen, not_true_eq_false, if_false, ne_eq] at hok ⊢
    by_cases hsize : ((buf.length : Int) ≤ 0 ∨ (buf.length : Int) > env.Config.MaxSize)
    · rw [if_pos hsize] at hok
      simp at hok
    rw [if_neg hsize] at hok ⊢
    generalize (if (Exists fs (L.Join env.Config.Directory h.Filename) o.statErr).1 = true then
        L.Join env.Config.Directory (id ++ "-" ++ h.Filename)
      else L.Join env.Config.Directory h.Filename) = dest at hok ⊢
    refine ⟨id, dest, rfl, ?_⟩
    have hwf : (fs.WriteFile dest buf o.writeErr).2 = none := by
      cases hw : (fs.WriteFile dest buf o.writeErr).2 with
      | none => rfl
      | some e => simp [hw] at hok
    have hdest : dest ≠ "" := (ReadFile_WriteFile fs dest buf o.writeErr hwf).2
    have hwerr : o.writeErr = none := by
      cases hwe : o.writeErr with
      | none => rfl
      | some e => simp [FS.WriteFile, hdest, hwe] at hwf
    have hp1 : o.putHashErr = none := by
      cases hpe : o.putHashErr with
      | none => rfl
      | some e => simp [hwf, Transport.Put, hpe] at hok
    have hp2 : o.putIdErr = none := by
      cases hpe : o.putIdErr with
      | none => rfl
      | some e => simp [hwf, Transport.Put, hp1, hpe] at hok
    refine ⟨hdest, ?_⟩
    simp [FS.WriteFile, hdest, hwerr, hp1, hp2, Transport.Put]

/-- A resolve request for a stored identifier whose file is readable:
the status line (201) is written first, then the Content-Type line is added
to the header map, then the bytes are written. -/
theorem GetIndex_found (L : Libs) (o : Faults) (env : Env) (fs : FS) (w : ResponseWriter)
    (r : Request) (source : String) (buf : Bytes)
    (hm : r.Method ≠ MethodPost) (hkey : ReplaceSlash r.Path ≠ "")
    (hget : env.Transport.Get (ReplaceSlash r.Path) = (source, none)) (hs : source ≠ "")
    (hread : fs.ReadFile source = .ok buf) :
    GetIndex L o env fs w r =
      { err := none, env := env, fs := fs,
        w := (((SetCookie w ⟨cookieName, -1, true, true, true⟩).WriteHeader
                StatusCreated).HeaderAdd "Content-Type" (L.Match buf).MIME.Value).Write L buf,
        log := [] } := by
  unfold GetIndex
  simp only [hm, hkey, hget, hs, hread, if_false, if_true, ne_eq, not_false_eq_true]

/-- Whatever the session cookie, and whether or not the file can be read, a
resolve request for a stored identifier is answered with status 201. -/
theorem ServeHTTP_resolve_status (L : Libs) (o : Faults) (env : Env) (fs : FS) (r : Request)
    (source : String)
    (hm : r.Method ≠ MethodPost) (hkey : ReplaceSlash r.Path ≠ "")
    (hget : env.Transport.Get (ReplaceSlash r.Path) = (source, none)) (hs : source ≠ "") :
    (Handler.ServeHTTP ⟨env, GetIndex⟩ L o fs ResponseWriter.fresh r).w.status
      = StatusCreated := by
  have hc : ((SetCookie ResponseWriter.fresh ⟨cookieName, -1, true, true, true⟩).WriteHeader
      StatusCreated).wroteHeader = true
      ∧ ((SetCookie ResponseWriter.fresh ⟨cookieName, -1, true, true, true⟩).WriteHeader
      StatusCreated).status = StatusCreated := by
    decide
  unfold Handler.ServeHTTP GetIndex
  simp only [hm, hkey, hget, hs, if_false, if_true, ne_eq, not_false_eq_true, not_true_eq_false]
  cases hread : fs.ReadFile source with
  | error e =>
    simp only [StatusError.Error, StatusError.Status]
    rw [httpError_status _ _ _ _ hc.1]
    exact hc.2
  | ok buf =>
    simp only
    have h1 : (((SetCookie ResponseWriter.fresh ⟨cookieName, -1, true, true, true⟩).WriteHeader
      StatusCreated).HeaderAdd "Content-Type" (L.Match buf).MIME.Value).wroteHeader = true := hc.1
    rw [(Write_status L _ _ h1).1]
    exact hc.2

/-- The Content-Type line sent with a resolved file is the sniffed one: the
line the handler adds after the status line never reaches the wire. -/
theorem GetIndex_sent_content_type (L : Libs) (o : Faults) (env : Env) (fs : FS) (r : Request)
    (source : String) (buf : Bytes)
    (hm : r.Method ≠ MethodPost) (hkey : ReplaceSlash r.Path ≠ "")
    (hget : env.Transport.Get (ReplaceSlash r.Path) = (source, none)) (hs : source ≠ "")
    (hread : fs.ReadFile source = .ok buf) (hbuf : buf ≠ []) :
    (GetIndex L o env fs ResponseWriter.fresh r).w.sent.Get "Content-Type"
      = some (L.DetectContentType buf) := by
  unfold GetIndex
  simp only [hm, hkey, hget, hs, hread, if_false, if_true, ne_eq, not_false_eq_true]
  simp [ResponseWriter.Write, ResponseWriter.WriteHeader, ResponseWriter.HeaderAdd, SetCookie,
    ResponseWriter.fresh, hbuf, Header.Get, Header.Set, Header.Add, Cookie.String, cookieName,
    List.lookup_cons]

/-! ## Upload path: dedup and round trip -/

/-- When the identifier of a new upload is the fingerprint string of its
payload, the second store write replaces the first: after the call the
fingerprint key holds the path of the file, whatever the libraries. -/
theorem CreateLink_fingerprint_entry_replaced (L : Libs) (o : Faults) (env : Env) (fs : FS)
    (w : ResponseWriter) (r : Request) (h : FileHeader) (buf : Bytes)
    (hr : r.form = some ⟨h, some buf⟩)
    (hget : (env.Transport.Get (L.Sum256 buf)).1 = "")
    (hok : (CreateLink L o env fs w r).err = none)
    (hclash : Generate env.Config.IdAlphabet env.Config.IdLength o.picks = .ok (L.Sum256 buf)) :
    ∃ dest, dest ≠ ""
      ∧ Effect.storePut (L.Sum256 buf) dest ∈ (CreateLink L o env fs w r).log
      ∧ (CreateLink L o env fs w r).env.Transport.Get (L.Sum256 buf) = (dest, none) := by
  obtain ⟨id, dest, hgen, hdest, heq⟩ := CreateLink_fresh L o env fs w r h buf hr hget hok
  rw [hclash] at hgen
  have hid : L.Sum256 buf = id := Except.ok.inj hgen
  subst hid
  refine ⟨dest, hdest, ?_, ?_⟩
  · rw [heq]
    simp
  · rw [heq]
    exact Get_Put_same _ _ _

/-- Counterexample to C1 as stated, under the sample libraries.  The upload
of `jpegTiny` succeeds and redirects to the identifier `clashId`, which is
the fingerprint string of the payload: the second store write
`Put(id, destination)` replaces the entry `fingerprint -> id` written just
before.  The next upload of the same bytes finds the path under the
fingerprint key and redirects to `upload/cat.jpg`, not to `clashId`. -/
theorem C1_counterexample :
    RedirectsTo clashEnv.Config.ShortenerHostname clashA clashId
      ∧ clashA.log = [.fileWrite "upload/cat.jpg" jpegTiny,
          .storePut (sampleLibs.Sum256 jpegTiny) clashId, .storePut clashId "upload/cat.jpg"]
      ∧ sampleLibs.Sum256 jpegTiny = clashId
      ∧ clashB.err = none
      ∧ clashB.w.header.Get "Location"
          = some (Sprintf clashEnv.Config.ShortenerHostname "upload/cat.jpg")
      ∧ ¬ RedirectsTo clashEnv.Config.ShortenerHostname clashB clashId := by
  decide

/-- Claim C1 as amended (dedup).  If `CreateLink` on a payload succeeds and
redirects to identifier `i`, and `i` is not the fingerprint string of the
payload, then a following `CreateLink` of the same bytes, under any file
name, with any writer and any fault pattern, redirects to `i` as well,
attempts no file write and no store write, and leaves store and files as
they were. -/
theorem C1_dedup_same_identifier (L : Libs) (o1 o2 : Faults) (env : Env) (fs : FS)
    (w1 w2 : ResponseWriter) (r1 r2 : Request) (h1 h2 : FileHeader) (buf : Bytes) (i : String)
    (hr1 : r1.form = some ⟨h1, some buf⟩) (hr2 : r2.form = some ⟨h2, some buf⟩)
    (hfirst : RedirectsTo env.Config.ShortenerHostname (CreateLink L o1 env fs w1 r1) i)
    (hne : L.Sum256 buf ≠ i) :
    RedirectsTo env.Config.ShortenerHostname
        (CreateLink L o2 (CreateLink L o1 env fs w1 r1).env (CreateLink L o1 env fs w1 r1).fs w2 r2) i
      ∧ (CreateLink L o2 (CreateLink L o1 env fs w1 r1).env
          (CreateLink L o1 env fs w1 r1).fs w2 r2).log = []
      ∧ (CreateLink L o2 (CreateLink L o1 env fs w1 r1).env
          (CreateLink L o1 env fs w1 r1).fs w2 r2).env = (CreateLink L o1 env fs w1 r1).env
      ∧ (CreateLink L o2 (CreateLink L o1 env fs w1 r1).env
          (CreateLink L o1 env fs w1 r1).fs w2 r2).fs = (CreateLink L o1 env fs w1 r1).fs := by
  obtain ⟨hok, hloc⟩ := hfirst
  have key : ∀ (env1 : Env) (fs1 : FS), env1.Config = env.Config →
      (env1.Transport.Get (L.Sum256 buf)).1 = i → i ≠ "" →
      RedirectsTo env.Config.ShortenerHostname (CreateLink L o2 env1 fs1 w2 r2) i
        ∧ (CreateLink L o2 env1 fs1 w2 r2).log = []
        ∧ (CreateLink L o2 env1 fs1 w2 r2).env = env1
        ∧ (CreateLink L o2 env1 fs1 w2 r2).fs = fs1 := by
    intro env1 fs1 hc hg hi
    have hhit := CreateLink_hit L o2 env1 fs1 w2 r2 h2 buf hr2 (by rw [hg]; exact hi)
    rw [hhit, hg, hc]
    exact ⟨⟨rfl, Redirect_Location _ _ _⟩, rfl, rfl, rfl⟩
  by_cases hget : (env.Transport.Get (L.Sum256 buf)).1 = ""
  · obtain ⟨id, dest, hgen, hdest, heq⟩ := CreateLink_fresh L o1 env fs w1 r1 h1 buf hr1 hget hok
    rw [heq] at hloc ⊢
    simp only [Redirect_Location, Option.some.injEq] at hloc
    have hid : id = i := Sprintf_inj _ _ _ hloc
    subst hid
    apply key
    · rfl
    · simp only
      rw [Get_Put_other _ _ _ _ hne, Get_Put_same]
    · exact Generate_ne_empty _ _ _ _ hgen
  · have hhit := CreateLink_hit L o1 env fs w1 r1 h1 buf hr1 hget
    rw [hhit] at hloc ⊢
    simp only [Redirect_Location, Option.some.injEq] at hloc
    have hid := Sprintf_inj _ _ _ hloc
    apply key
    · rfl
    · exact hid
    · rw [← hid]; exact hget

/-- Witness for C1: `jpegA` uploaded as `cat.png` and again as `cat2.png`. -/
theorem C1_dedup_same_identifier_witness :
    RedirectsTo emptyEnv.Config.ShortenerHostname firstUpload "123000000000"
      ∧ sampleLibs.Sum256 jpegA ≠ "123000000000"
      ∧ RedirectsTo emptyEnv.Config.ShortenerHostname
        (CreateLink sampleLibs (noFaults [4, 5, 6]) firstUpload.env firstUpload.fs
          ResponseWriter.fresh (upload "cat2.png" jpegA)) "123000000000"
      ∧ (CreateLink sampleLibs (noFaults [4, 5, 6]) firstUpload.env firstUpload.fs
          ResponseWriter.fresh (upload "cat2.png" jpegA)).log = [] :=
  have h := C1_dedup_same_identifier sampleLibs (noFaults [1, 2, 3]) (noFaults [4, 5, 6])
    emptyEnv emptyFS ResponseWriter.fresh ResponseWriter.fresh (upload "cat.png" jpegA)
    (upload "cat2.png" jpegA) ⟨"cat.png"⟩ ⟨"cat2.png"⟩ jpegA "123000000000" rfl rfl
    (by decide) (by decide)
  ⟨by decide, by decide, h.1, h.2.1⟩

/-- Counterexample to C2 as stated.  The first upload of `jpegA` fails in its
second store write (status 500) after the fingerprint entry was recorded; the
same upload, repeated without any failure, succeeds through the dedup path and
redirects to `123000000000`; resolving that identifier gives NotFound and not
the uploaded bytes. -/
theorem C2_counterexample :
    retryA.err = some (.status ⟨StatusInternalServerError, "put failed"⟩)
      ∧ RedirectsTo emptyEnv.Config.ShortenerHostname retryB "123000000000"
      ∧ (GetIndex sampleLibs (noFaults []) retryB.env retryB.fs ResponseWriter.fresh
          (resolve "123000000000" false)).err = some (.status (makeStatusError StatusNotFound))
      ∧ (GetIndex sampleLibs (noFaults []) retryB.env retryB.fs ResponseWriter.fresh
          (resolve "123000000000" false)).w.body ≠ jpegA := by
  decide

/-- Claim C2 as amended (round trip for new content).  If the fingerprint of
the payload has no entry in the store and `CreateLink` succeeds and redirects
to identifier `i`, then a resolve request (any method but POST, any cookies)
for path `/i` on the resulting store and files succeeds and its response body
is exactly the uploaded payload. -/
theorem C2_round_trip_new_payload (L : Libs) (o o2 : Faults) (env : Env) (fs : FS)
    (w : ResponseWriter) (r r2 : Request) (h : FileHeader) (buf : Bytes) (i : String)
    (hr : r.form = some ⟨h, some buf⟩)
    (hnew : env.Transport.Absent (L.Sum256 buf))
    (hred : RedirectsTo env.Config.ShortenerHostname (CreateLink L o env fs w r) i)
    (hm : r2.Method ≠ MethodPost) (hp : r2.Path = "/" ++ i) :
    (GetIndex L o2 (CreateLink L o env fs w r).env (CreateLink L o env fs w r).fs
        ResponseWriter.fresh r2).err = none
      ∧ (GetIndex L o2 (CreateLink L o env fs w r).env (CreateLink L o env fs w r).fs
        ResponseWriter.fresh r2).w.body = buf := by
  obtain ⟨hok, hloc⟩ := hred
  have hget : (env.Transport.Get (L.Sum256 buf)).1 = "" := by rw [Absent_Get _ _ hnew]
  obtain ⟨id, dest, hgen, hdest, heq⟩ := CreateLink_fresh L o env fs w r h buf hr hget hok
  rw [heq] at hloc ⊢
  simp only [Redirect_Location, Option.some.injEq] at hloc
  have hid : id = i := Sprintf_inj _ _ _ hloc
  subst hid
  have hne : id ≠ "" := Generate_ne_empty _ _ _ _ hgen
  have hk : ReplaceSlash r2.Path = id := by rw [hp, ReplaceSlash_slash]
  rw [GetIndex_found L o2 _ _ _ r2 dest buf hm (by rw [hk]; exact hne)
    (by rw [hk]; exact Get_Put_same _ _ _) hdest (by simp [FS.ReadFile, List.lookup_cons])]
  refine ⟨rfl, ?_⟩
  dsimp only
  rw [Write_body]
  simp [ResponseWriter.HeaderAdd, WriteHeader_body, SetCookie_body, ResponseWriter.fresh]

/-- Witness for C2: `jpegA` uploaded to an empty store, then resolved. -/
theorem C2_round_trip_new_payload_witness :
    emptyEnv.Transport.Absent (sampleLibs.Sum256 jpegA)
      ∧ RedirectsTo emptyEnv.Config.ShortenerHostname firstUpload "123000000000"
      ∧ (GetIndex sampleLibs (noFaults []) firstUpload.env firstUpload.fs
          ResponseWriter.fresh (resolve "123000000000" false)).w.body = jpegA :=
  ⟨by decide, by decide,
    (C2_round_trip_new_payload sampleLibs (noFaults [1, 2, 3]) (noFaults []) emptyEnv emptyFS
      ResponseWriter.fresh (upload "cat.png" jpegA) (resolve "123000000000" false) ⟨"cat.png"⟩
      jpegA "123000000000" rfl (by decide) (by decide) (by decide) rfl).2⟩

/-! ## Upload path: rejections -/

/-- Counterexample to C3 as stated.  With a ceiling of four bytes, a text
payload of five bytes is rejected with 415 and not 413; with the default
ceiling, an empty payload is rejected with 415 and not 413: the type check
comes before the size check. -/
theorem C3_counterexample :
    (textHello.length : Int) > smallEnv.Config.MaxSize
      ∧ (CreateLink sampleLibs (noFaults [1, 2, 3]) smallEnv emptyFS ResponseWriter.fresh
          (upload "hello.txt" textHello)).err
        = some (.status (makeStatusError StatusUnsupportedMediaType))
      ∧ (CreateLink sampleLibs (noFaults [1, 2, 3]) emptyEnv emptyFS ResponseWriter.fresh
          (upload "empty.png" [])).err
        = some (.status (makeStatusError StatusUnsupportedMediaType)) := by
  decide

/-- Claim C3 as amended.  For every payload whose size is zero or exceeds
`Config.MaxSize` and whose fingerprint has no entry in the store, `CreateLink`
fails, attempts no file write and no store write, and leaves store, files and
response writer untouched.  The failure is PayloadTooLarge (413) when the
payload passed the earlier checks (recognised as an image of a known type, and
an identifier was generated); a payload that is not an image fails with
UnsupportedMediaType (415) whatever its size. -/
theorem C3_size_rejected_after_type_checks (L : Libs) (o : Faults) (env : Env) (fs : FS)
    (w : ResponseWriter) (r : Request) (h : FileHeader) (buf : Bytes)
    (hr : r.form = some ⟨h, some buf⟩)
    (hnew : env.Transport.Absent (L.Sum256 buf))
    (hsize : buf.length = 0 ∨ (buf.length : Int) > env.Config.MaxSize) :
    (CreateLink L o env fs w r).err ≠ none
      ∧ (CreateLink L o env fs w r).log = []
      ∧ (CreateLink L o env fs w r).env = env
      ∧ (CreateLink L o env fs w r).fs = fs
      ∧ (CreateLink L o env fs w r).w = w
      ∧ (L.IsImage buf = true → L.Match buf ≠ Unknown →
          (∃ id, Generate env.Config.IdAlphabet env.Config.IdLength o.picks = .ok id) →
          (CreateLink L o env fs w r).err
            = some (.status (makeStatusError StatusRequestEntityTooLarge)))
      ∧ (L.IsImage buf = false →
          (CreateLink L o env fs w r).err
            = some (.status (makeStatusError StatusUnsupportedMediaType))) := by
  have hget := Absent_Get _ _ hnew
  have hsz : ((buf.length : Int) ≤ 0 ∨ (buf.length : Int) > env.Config.MaxSize) := by
    rcases hsize with h0 | h1
    · left; omega
    · right; exact h1
  unfold CreateLink
  simp only [hr, hget, ne_eq, not_true_eq_false, if_false]
  by_cases himg : L.IsImage buf = true
  swap
  · simp [himg]
  by_cases hk : L.Match buf = Unknown
  · simp [himg, hk]
  cases hgen : Generate env.Config.IdAlphabet env.Config.IdLength o.picks with
  | error e => simp [himg, hk]
  | ok id =>
    simp only [himg, hk, not_true_eq_false, if_false]
    rw [if_pos hsz]
    simp

/-- Witness for C3: a JPEG of five bytes under a ceiling of four bytes gets 413. -/
theorem C3_size_rejected_after_type_checks_witness :
    smallEnv.Transport.Absent (sampleLibs.Sum256 jpegBig)
      ∧ (jpegBig.length : Int) > smallEnv.Config.MaxSize
      ∧ (CreateLink sampleLibs (noFaults [1, 2, 3]) smallEnv emptyFS ResponseWriter.fresh
          (upload "big.jpg" jpegBig)).log = []
      ∧ (CreateLink sampleLibs (noFaults [1, 2, 3]) smallEnv emptyFS ResponseWriter.fresh
          (upload "big.jpg" jpegBig)).err
        = some (.status (makeStatusError StatusRequestEntityTooLarge)) :=
  have h := C3_size_rejected_after_type_checks sampleLibs (noFaults [1, 2, 3]) smallEnv emptyFS
    ResponseWriter.fresh (upload "big.jpg" jpegBig) ⟨"big.jpg"⟩ jpegBig rfl (by decide)
    (Or.inr (by decide))
  ⟨by decide, by decide, h.2.1, h.2.2.2.2.2.1 (by decide) (by decide) ⟨"123000000000", by decide⟩⟩

/-- Claim C4.  For every payload that the classifier does not recognise as an
image and whose fingerprint has no entry in the store, `CreateLink` fails with
UnsupportedMediaType (415), attempts no file write and no store write, and
leaves store and files as they were. -/
theorem C4_non_image_rejected (L : Libs) (o : Faults) (env : Env) (fs : FS) (w : ResponseWriter)
    (r : Request) (h : FileHeader) (buf : Bytes)
    (hr : r.form = some ⟨h, some buf⟩)
    (himg : L.IsImage buf = false)
    (hnew : env.Transport.Absent (L.Sum256 buf)) :
    (CreateLink L o env fs w r).err = some (.status (makeStatusError StatusUnsupportedMediaType))
      ∧ (CreateLink L o env fs w r).log = []
      ∧ (CreateLink L o env fs w r).env = env
      ∧ (CreateLink L o env fs w r).fs = fs := by
  have hget := Absent_Get _ _ hnew
  simp [CreateLink, hr, hget, himg]

/-- Witness for C4: a text file uploaded to an empty store. -/
theorem C4_non_image_rejected_witness :
    sampleLibs.IsImage textHello = false
      ∧ emptyEnv.Transport.Absent (sampleLibs.Sum256 textHello)
      ∧ (CreateLink sampleLibs (noFaults [1, 2, 3]) emptyEnv emptyFS ResponseWriter.fresh
          (upload "hello.txt" textHello)).err
        = some (.status (makeStatusError StatusUnsupportedMediaType))
      ∧ (CreateLink sampleLibs (noFaults [1, 2, 3]) emptyEnv emptyFS ResponseWriter.fresh
          (upload "hello.txt" textHello)).log = [] :=
  have h := C4_non_image_rejected sampleLibs (noFaults [1, 2, 3]) emptyEnv emptyFS
    ResponseWriter.fresh (upload "hello.txt" textHello) ⟨"hello.txt"⟩ textHello rfl (by decide)
    (by decide)
  ⟨by decide, by decide, h.1, h.2.1⟩

/-! ## Resolve path -/

/-- Claim C5.  For every resolve request (any method but POST) whose path
key is non-empty and has no entry in the store, `GetIndex` fails with NotFound
(404) before it sends anything: the response writer is left untouched (no
status line, no body) and no write is attempted; `ServeHTTP` then answers a
fresh writer with status 404. -/
theorem C5_unknown_identifier_not_found (L : Libs) (o : Faults) (env : Env) (fs : FS)
    (w : ResponseWriter) (r : Request)
    (hm : r.Method ≠ MethodPost) (hkey : ReplaceSlash r.Path ≠ "")
    (habs : env.Transport.Absent (ReplaceSlash r.Path)) :
    (GetIndex L o env fs w r).err = some (.status (makeStatusError StatusNotFound))
      ∧ (GetIndex L o env fs w r).w = w
      ∧ (GetIndex L o env fs w r).log = []
      ∧ (Handler.ServeHTTP ⟨env, GetIndex⟩ L o fs ResponseWriter.fresh r).w.status
          = StatusNotFound := by
  have hget := Absent_Get _ _ habs
  have hG : GetIndex L o env fs ResponseWriter.fresh r
      = { err := some (.status (makeStatusError StatusNotFound)), env := env, fs := fs,
          w := ResponseWriter.fresh, log := [] } := by
    simp [GetIndex, hm, hkey, hget]
  refine ⟨by simp [GetIndex, hm, hkey, hget], by simp [GetIndex, hm, hkey, hget],
    by simp [GetIndex, hm, hkey, hget], ?_⟩
  simp only [Handler.ServeHTTP, hG]
  rfl

/-- Witness for C5: the identifier `nope` resolved against an empty store. -/
theorem C5_unknown_identifier_not_found_witness :
    (resolve "nope" false).Method ≠ MethodPost
      ∧ ReplaceSlash (resolve "nope" false).Path ≠ ""
      ∧ emptyEnv.Transport.Absent (ReplaceSlash (resolve "nope" false).Path)
      ∧ (GetIndex sampleLibs (noFaults []) emptyEnv emptyFS ResponseWriter.fresh
          (resolve "nope" false)).err = some (.status (makeStatusError StatusNotFound))
      ∧ (Handler.ServeHTTP ⟨emptyEnv, GetIndex⟩ sampleLibs (noFaults []) emptyFS
          ResponseWriter.fresh (resolve "nope" false)).w.status = StatusNotFound :=
  have h := C5_unknown_identifier_not_found sampleLibs (noFaults []) emptyEnv emptyFS
    ResponseWriter.fresh (resolve "nope" false) (by decide) (by decide) (by decide)
  ⟨by decide, by decide, by decide, h.1, h.2.2.2⟩

/-- Claim C6, evaluated at a failing input.  The store maps `abc` to
`upload/cat.jpg` and no such file is on disk.  `GetIndex` returns the
NotFound error, but it has already written the status line: the status of
the response `ServeHTTP` sends is 201 and not 404. -/
theorem C6_unreadable_file_status_created :
    (GetIndex sampleLibs (noFaults []) danglingEnv emptyFS ResponseWriter.fresh
        (resolve "abc" false)).err = some (.status (makeStatusError StatusNotFound))
      ∧ (Handler.ServeHTTP ⟨danglingEnv, GetIndex⟩ sampleLibs (noFaults []) emptyFS
          ResponseWriter.fresh (resolve "abc" false)).w.status = StatusCreated
      ∧ (Handler.ServeHTTP ⟨danglingEnv, GetIndex⟩ sampleLibs (noFaults []) emptyFS
          ResponseWriter.fresh (resolve "abc" false)).w.status ≠ StatusNotFound := by
  decide

/-- Claim C7, evaluated at a failing input.  The identifier `abc` resolves to
a readable TIFF file.  The classifier reports `image/tiff` and the handler
adds that line to its header map, but after the status line was written: the
Content-Type line of the response sent is the sniffed
`application/octet-stream`. -/
theorem C7_content_type_not_from_classifier :
    (Handler.ServeHTTP ⟨tiffEnv, GetIndex⟩ sampleLibs (noFaults []) tiffFS
        ResponseWriter.fresh (resolve "abc" false)).err = none
      ∧ (Handler.ServeHTTP ⟨tiffEnv, GetIndex⟩ sampleLibs (noFaults []) tiffFS
        ResponseWriter.fresh (resolve "abc" false)).w.body = tiffA
      ∧ (sampleLibs.Match tiffA).MIME.Value = "image/tiff"
      ∧ (Handler.ServeHTTP ⟨tiffEnv, GetIndex⟩ sampleLibs (noFaults []) tiffFS
        ResponseWriter.fresh (resolve "abc" false)).w.header.Get "Content-Type"
          = some "image/tiff"
      ∧ (Handler.ServeHTTP ⟨tiffEnv, GetIndex⟩ sampleLibs (noFaults []) tiffFS
        ResponseWriter.fresh (resolve "abc" false)).w.sent.Get "Content-Type"
          = some "application/octet-stream" := by
  decide

/-! ## Upload path: storage failure and frame -/

/-- Claim C8 (atomicity on storage failure).  For every upload of new content
(no store entry for its fingerprint) that is a valid image (recognised, known
type, size within the ceiling) and for which an identifier was generated: if
writing the file fails, `CreateLink` fails with InternalError (500), the store
is exactly as before and no store write was attempted. -/
theorem C8_write_failure_keeps_store (L : Libs) (o : Faults) (env : Env) (fs : FS)
    (w : ResponseWriter) (r : Request) (h : FileHeader) (buf : Bytes) (id e : String)
    (hr : r.form = some ⟨h, some buf⟩)
    (hnew : env.Transport.Absent (L.Sum256 buf))
    (himg : L.IsImage buf = true) (hkind : L.Match buf ≠ Unknown)
    (hgen : Generate env.Config.IdAlphabet env.Config.IdLength o.picks = .ok id)
    (hsize : 0 < buf.length ∧ (buf.length : Int) ≤ env.Config.MaxSize)
    (hwrite : o.writeErr = some e) :
    (∃ msg, (CreateLink L o env fs w r).err
        = some (.status ⟨StatusInternalServerError, msg⟩))
      ∧ (CreateLink L o env fs w r).env = env
      ∧ (∀ key value, Effect.storePut key value ∉ (CreateLink L o env fs w r).log) := by
  have hget := Absent_Get _ _ hnew
  have hsz : ¬ ((buf.length : Int) ≤ 0 ∨ (buf.length : Int) > env.Config.MaxSize) := by omega
  unfold CreateLink
  simp only [hr, hget, ne_eq, not_true_eq_false, if_false, himg, hkind, hgen, hwrite]
  rw [if_neg hsz]
  generalize (if (Exists fs (L.Join env.Config.Directory h.Filename) o.statErr).1 = true then
      L.Join env.Config.Directory (id ++ "-" ++ h.Filename)
    else L.Join env.Config.Directory h.Filename) = dest
  obtain ⟨_, msg, hmsg⟩ := WriteFile_fault fs dest buf e
  rw [hmsg]
  exact ⟨⟨msg, rfl⟩, rfl, by intro key value; simp⟩

/-- Witness for C8: `jpegA` uploaded to an empty store while the disk is full. -/
theorem C8_write_failure_keeps_store_witness :
    emptyEnv.Transport.Absent (sampleLibs.Sum256 jpegA)
      ∧ writeFails.writeErr = some "disk full"
      ∧ (CreateLink sampleLibs writeFails emptyEnv emptyFS ResponseWriter.fresh
          (upload "cat.png" jpegA)).err
        = some (.status ⟨StatusInternalServerError, "disk full"⟩)
      ∧ (CreateLink sampleLibs writeFails emptyEnv emptyFS ResponseWriter.fresh
          (upload "cat.png" jpegA)).env = emptyEnv :=
  have h := C8_write_failure_keeps_store sampleLibs writeFails emptyEnv emptyFS
    ResponseWriter.fresh (upload "cat.png" jpegA) ⟨"cat.png"⟩ jpegA "123000000000" "disk full"
    rfl (by decide) (by decide) (by decide) (by decide) (by decide) rfl
  ⟨by decide, rfl, by decide, h.2.1⟩

/-- Counterexample to C9 as stated.  Two different images are uploaded and
the generator draws `000000000000` both times.  The key `000000000000` is in
the store before the second call with value `upload/a.jpg` and maps to
`upload/b.jpg` after it. -/
theorem C9_counterexample :
    collideA.env.Transport.entries.lookup "000000000000" = some "upload/a.jpg"
      ∧ collideB.err = none
      ∧ collideB.env.Transport.entries.lookup "000000000000" = some "upload/b.jpg" := by
  decide

/-- Claim C9 as amended.  For every store state, every `CreateLink` call and
every key that the store maps to a non-empty value before the call: unless
the key is the identifier the generator yields in this call, it maps to the
same value after the call. -/
theorem C9_other_keys_keep_value (L : Libs) (o : Faults) (env : Env) (fs : FS)
    (w : ResponseWriter) (r : Request) (k v : String)
    (hk : env.Transport.entries.lookup k = some v) (hv : v ≠ "")
    (hid : Generate env.Config.IdAlphabet env.Config.IdLength o.picks ≠ .ok k) :
    (CreateLink L o env fs w r).env.Transport.entries.lookup k = some v := by
  unfold CreateLink
  cases hf : r.form with
  | none => exact hk
  | some ff =>
    obtain ⟨h, file⟩ := ff
    cases file with
    | none => exact hk
    | some buf =>
      simp only
      have hgk : env.Transport.Get k = (v, none) := by simp [Transport.Get, hk]
      generalize hg : env.Transport.Get (L.Sum256 buf) = g
      obtain ⟨e, ge⟩ := g
      simp only
      by_cases he : e = ""
      swap
      · simp only [ne_eq, he, not_false_eq_true, if_true]
        exact hk
      subst he
      have hne : k ≠ L.Sum256 buf := by
        intro hkh
        rw [hkh, hg] at hgk
        exact hv (congrArg Prod.fst hgk).symm
      simp only [ne_eq, not_true_eq_false, if_false]
      split
      · exact hk
      split
      · exact hk
      cases hgen : Generate env.Config.IdAlphabet env.Config.IdLength o.picks with
      | error e => exact hk
      | ok id =>
        have hki : k ≠ id := by
          intro hki
          rw [hgen, hki] at hid
          exact hid rfl
        simp only
        split
        · exact hk
        generalize (if (Exists fs (L.Join env.Config.Directory h.Filename) o.statErr).1 = true then
            L.Join env.Config.Directory (id ++ "-" ++ h.Filename)
          else L.Join env.Config.Directory h.Filename) = dest
        split
        · exact hk
        split
        · simp only [lookup_Put_other _ _ _ _ _ hne]
          exact hk
        split
        · simp only [lookup_Put_other _ _ _ _ _ hki, lookup_Put_other _ _ _ _ _ hne]
          exact hk
        · simp only [lookup_Put_other _ _ _ _ _ hki, lookup_Put_other _ _ _ _ _ hne]
          exact hk

/-- Witness for C9: after the upload of `jpegA`, an upload of `jpegB` with
another identifier keeps the entry of `000000000000`. -/
theorem C9_other_keys_keep_value_witness :
    collideA.env.Transport.entries.lookup "000000000000" = some "upload/a.jpg"
      ∧ Generate collideA.env.Config.IdAlphabet collideA.env.Config.IdLength
          (noFaults [1]).picks ≠ .ok "000000000000"
      ∧ (CreateLink sampleLibs (noFaults [1]) collideA.env collideA.fs ResponseWriter.fresh
          (upload "b.jpg" jpegB)).env.Transport.entries.lookup "000000000000"
        = some "upload/a.jpg" :=
  ⟨by decide, by decide,
    C9_other_keys_keep_value sampleLibs (noFaults [1]) collideA.env collideA.fs
      ResponseWriter.fresh (upload "b.jpg" jpegB) "000000000000" "upload/a.jpg" (by decide)
      (by decide) (by decide)⟩

/-- Counterexample to C10 as stated.  Three successful uploads of images with
three different fingerprints and three different identifiers: `jpegA` as
`000000000000-x.jpg`, `jpegB` as `x.jpg`, `jpegC` as `x.jpg` with identifier
`000000000000`.  The third upload is written to the path of the first one and
replaces its content. -/
theorem C10_counterexample :
    namesA.err = none ∧ namesB.err = none ∧ namesC.err = none
      ∧ sampleLibs.Sum256 jpegA ≠ sampleLibs.Sum256 jpegC
      ∧ Effect.fileWrite "upload/000000000000-x.jpg" jpegA ∈ namesA.log
      ∧ Effect.fileWrite "upload/000000000000-x.jpg" jpegC ∈ namesC.log
      ∧ namesB.fs.files.lookup "upload/000000000000-x.jpg" = some jpegA
      ∧ namesC.fs.files.lookup "upload/000000000000-x.jpg" = some jpegC := by
  decide

/-- Claim C10 as amended.  `CreateLink` writes the payload, and only the
payload, to `directory/filename`, or to `directory/identifier-filename` when
a file exists at the first path.  When `os.Stat` reports without error and
at least one of the two paths is free, the path written to holds no file
before the call: nothing is written over. -/
theorem C10_no_overwrite_when_a_name_is_free (L : Libs) (o : Faults) (env : Env) (fs : FS)
    (w : ResponseWriter) (r : Request) (h : FileHeader) (buf : Bytes) (id path : String)
    (data : Bytes)
    (hr : r.form = some ⟨h, some buf⟩)
    (hstat : o.statErr = none)
    (hgen : Generate env.Config.IdAlphabet env.Config.IdLength o.picks = .ok id)
    (hfree : fs.files.lookup (L.Join env.Config.Directory h.Filename) = none
      ∨ fs.files.lookup (L.Join env.Config.Directory (id ++ "-" ++ h.Filename)) = none)
    (hw : Effect.fileWrite path data ∈ (CreateLink L o env fs w r).log) :
    fs.files.lookup path = none ∧ data = buf
      ∧ (path = L.Join env.Config.Directory h.Filename
        ∨ path = L.Join env.Config.Directory (id ++ "-" ++ h.Filename)) := by
  have hdest : ∀ dest,
      dest = (if (Exists fs (L.Join env.Config.Directory h.Filename) o.statErr).1 = true then
        L.Join env.Config.Directory (id ++ "-" ++ h.Filename)
      else L.Join env.Config.Directory h.Filename) →
      fs.files.lookup dest = none
        ∧ (dest = L.Join env.Config.Directory h.Filename
          ∨ dest = L.Join env.Config.Directory (id ++ "-" ++ h.Filename)) := by
    intro dest hd
    rw [hstat, Exists_eq] at hd
    cases hl : fs.files.lookup (L.Join env.Config.Directory h.Filename) with
    | none =>
      rw [hl] at hd
      simp only [Option.isSome_none, Bool.false_eq_true, if_false] at hd
      rw [hd]
      exact ⟨hl, Or.inl rfl⟩
    | some d =>
      rw [hl] at hd
      simp only [Option.isSome_some, if_true] at hd
      rw [hd]
      rcases hfree with h1 | h2
      · rw [hl] at h1; cases h1
      · exact ⟨h2, Or.inr rfl⟩
  unfold CreateLink at hw
  simp only [hr, hgen] at hw
  generalize hd : (if (Exists fs (L.Join env.Config.Directory h.Filename) o.statErr).1 = true then
        L.Join env.Config.Directory (id ++ "-" ++ h.Filename)
      else L.Join env.Config.Directory h.Filename) = dest at hw
  have hmem : Effect.fileWrite path data ∈
      [Effect.fileWrite dest buf, .storePut (L.Sum256 buf) id, .storePut id dest] := by
    generalize env.Transport.Get (L.Sum256 buf) = g at hw
    obtain ⟨e, ge⟩ := g
    simp only at hw
    repeat' split at hw
    all_goals
      simp only [List.mem_cons, List.mem_singleton, List.not_mem_nil, or_false] at hw ⊢
      try tauto
  simp only [List.mem_cons, Effect.fileWrite.injEq, List.mem_singleton, reduceCtorEq, or_false,
    List.not_mem_nil] at hmem
  obtain ⟨hp, hdata⟩ := hmem
  obtain ⟨h1, h2⟩ := hdest dest hd.symm
  rw [hp, hdata]
  exact ⟨h1, rfl, h2⟩

/-- Witness for C10: the first upload into an empty directory writes
`upload/cat.png`; an upload of `x.jpg` into a directory where `x.jpg` is
taken writes the free path `upload/300000000000-x.jpg`. -/
theorem C10_no_overwrite_when_a_name_is_free_witness :
    (noFaults [1, 2, 3]).statErr = none
      ∧ emptyFS.files.lookup (sampleLibs.Join emptyEnv.Config.Directory "cat.png") = none
      ∧ Effect.fileWrite "upload/cat.png" jpegA ∈ firstUpload.log
      ∧ emptyFS.files.lookup "upload/cat.png" = none
      ∧ namesB.fs.files.lookup "upload/x.jpg" = some jpegB
      ∧ Effect.fileWrite "upload/300000000000-x.jpg" jpegC ∈ namesD.log
      ∧ namesB.fs.files.lookup "upload/300000000000-x.jpg" = none :=
  ⟨rfl, by decide, by decide,
    (C10_no_overwrite_when_a_name_is_free sampleLibs (noFaults [1, 2, 3]) emptyEnv emptyFS
      ResponseWriter.fresh (upload "cat.png" jpegA) ⟨"cat.png"⟩ jpegA "123000000000"
      "upload/cat.png" jpegA rfl rfl (by decide) (Or.inl (by decide)) (by decide)).1,
    by decide, by decide,
    (C10_no_overwrite_when_a_name_is_free sampleLibs (noFaults [3]) namesB.env namesB.fs
      ResponseWriter.fresh (upload "x.jpg" jpegC) ⟨"x.jpg"⟩ jpegC "300000000000"
      "upload/300000000000-x.jpg" jpegC rfl rfl (by decide) (Or.inr (by decide))
      (by decide)).1⟩

/-! ## The link-record invariant -/

theorem lookup_Put_same (t : Transport) (k v : String) :
    (t.Put k v none).1.entries.lookup k = some v := by
  simp [Transport.Put, List.lookup_cons]

/-- A put never removes a key. -/
theorem lookup_Put_isSome (t : Transport) (k v k1 : String) (f : Option String)
    (h : (t.entries.lookup k1).isSome = true) :
    ((t.Put k v f).1.entries.lookup k1).isSome = true := by
  by_cases hk : k1 = k
  · subst hk
    cases f with
    | none => rw [lookup_Put_same]; rfl
    | some e => exact h
  · rw [lookup_Put_other _ _ _ _ _ hk]
    exact h

/-- The two store writes of a new upload, when both succeed, keep the
invariant, provided the new identifier is not a fingerprint key. -/
theorem LinkInvariant_Put_Put (L : Libs) (t : Transport) (buf : Bytes) (id dest : String)
    (hinv : LinkInvariant L t) (hfp : ∀ b, L.Sum256 b ≠ id) :
    LinkInvariant L ((t.Put (L.Sum256 buf) id none).1.Put id dest none).1 := by
  intro b i hb
  rw [lookup_Put_other _ _ _ _ _ (hfp b)] at hb
  by_cases hk : L.Sum256 b = L.Sum256 buf
  · rw [hk, lookup_Put_same] at hb
    cases hb
    rw [lookup_Put_same]
    rfl
  · rw [lookup_Put_other _ _ _ _ _ hk] at hb
    exact lookup_Put_isSome _ _ _ _ _ (lookup_Put_isSome _ _ _ _ _ (hinv b i hb))

/-- When the second store write fails the invariant is lost: after `retryA`
the fingerprint of `jpegA` maps to `123000000000`, which is not a key. -/
theorem LinkInvariant_broken_by_failed_put :
    ¬ LinkInvariant sampleLibs retryA.env.Transport := by
  intro h
  have h1 := h jpegA "123000000000" (by decide)
  revert h1
  decide

/-- Counterexample to C11 as stated, under the sample libraries.  The store
is empty, so the invariant holds; the upload of `jpegTiny` succeeds with both
store writes; its identifier is the fingerprint string of the payload, so
afterwards the fingerprint key holds the path `upload/cat.jpg`, which is not
a key of the store. -/
theorem C11_counterexample :
    LinkInvariant sampleLibs clashEnv.Transport
      ∧ (noFaults [0, 1, 0]).putHashErr = none ∧ (noFaults [0, 1, 0]).putIdErr = none
      ∧ clashA.err = none
      ∧ clashA.env.Transport.entries = [(sampleLibs.Sum256 jpegTiny, "upload/cat.jpg")]
      ∧ ¬ LinkInvariant sampleLibs clashA.env.Transport := by
  refine ⟨?_, rfl, rfl, by decide, by decide, ?_⟩
  · intro b i hb
    cases hb
  · intro h
    have h1 := h jpegTiny "upload/cat.jpg" (by decide)
    revert h1
    decide

/-- Claim C11 as amended (link-record invariant).  If, before a `CreateLink`
call, every value stored under a fingerprint key is also a key of the store,
the store writes of the call succeed, and the identifier generated by the
call is not the fingerprint string of any payload, then the same holds after
the call, whatever the request, the files and the other faults. -/
theorem C11_link_invariant_preserved (L : Libs) (o : Faults) (env : Env) (fs : FS)
    (w : ResponseWriter) (r : Request)
    (hinv : LinkInvariant L env.Transport)
    (hput1 : o.putHashErr = none) (hput2 : o.putIdErr = none)
    (hfp : ∀ b, Generate env.Config.IdAlphabet env.Config.IdLength o.picks ≠ .ok (L.Sum256 b)) :
    LinkInvariant L (CreateLink L o env fs w r).env.Transport := by
  unfold CreateLink
  cases hf : r.form with
  | none => exact hinv
  | some ff =>
    obtain ⟨h, file⟩ := ff
    cases file with
    | none => exact hinv
    | some buf =>
      simp only
      generalize env.Transport.Get (L.Sum256 buf) = g
      obtain ⟨e, ge⟩ := g
      simp only
      split
      · exact hinv
      split
      · exact hinv
      split
      · exact hinv
      cases hgen : Generate env.Config.IdAlphabet env.Config.IdLength o.picks with
      | error e => exact hinv
      | ok id =>
        have hid : ∀ b, L.Sum256 b ≠ id := by
          intro b hb
          apply hfp b
          rw [hgen, hb]
        simp only [hput1, hput2]
        split
        · exact hinv
        generalize (if (Exists fs (L.Join env.Config.Directory h.Filename) o.statErr).1 = true then
            L.Join env.Config.Directory (id ++ "-" ++ h.Filename)
          else L.Join env.Config.Directory h.Filename) = dest
        split
        · exact hinv
        split
        · rename_i hc
          simp [Transport.Put] at hc
        split
        · rename_i hc
          simp [Transport.Put] at hc
        · exact LinkInvariant_Put_Put L env.Transport buf id dest hinv hid

/-- Witness for C11: `jpegA` uploaded to an empty store, with fingerprints
marked `sha256:`; the store then holds the two entries of the record. -/
theorem C11_link_invariant_preserved_witness :
    LinkInvariant taggedLibs emptyEnv.Transport
      ∧ (noFaults [1, 2, 3]).putHashErr = none ∧ (noFaults [1, 2, 3]).putIdErr = none
      ∧ (CreateLink taggedLibs (noFaults [1, 2, 3]) emptyEnv emptyFS ResponseWriter.fresh
          (upload "cat.png" jpegA)).env.Transport.entries
        = [("123000000000", "upload/cat.png"), (taggedLibs.Sum256 jpegA, "123000000000")]
      ∧ LinkInvariant taggedLibs
          (CreateLink taggedLibs (noFaults [1, 2, 3]) emptyEnv emptyFS ResponseWriter.fresh
            (upload "cat.png" jpegA)).env.Transport :=
  have h0 : LinkInvariant taggedLibs emptyEnv.Transport := by
    intro b i hb
    cases hb
  ⟨h0, rfl, rfl, by decide,
    C11_link_invariant_preserved taggedLibs (noFaults [1, 2, 3]) emptyEnv emptyFS
      ResponseWriter.fresh (upload "cat.png" jpegA) h0 rfl rfl (by
        intro b hb
        have hg : Generate emptyEnv.Config.IdAlphabet emptyEnv.Config.IdLength
            (noFaults [1, 2, 3]).picks = .ok "123000000000" := by decide
        rw [hg] at hb
        have hd := congrArg String.data (Except.ok.inj hb)
        simp [taggedLibs, String.data_append] at hd)⟩

/-! ## Upload path: unknown type -/

/-- The sample classifier keeps the contract of h2non/filetype. -/
theorem sampleLibs_MatchNamesImages : sampleLibs.MatchNamesImages := by
  intro b hb
  have hb1 : (isJpeg b || isPng b || isTiff b) = true := hb
  show sampleMatch b ≠ Unknown
  unfold sampleMatch
  by_cases h1 : isJpeg b = true
  · simp only [h1, if_true]; decide
  by_cases h2 : isPng b = true
  · simp only [h1, h2, if_true, if_false]; decide
  by_cases h3 : isTiff b = true
  · simp only [h1, h2, h3, if_true, if_false]; decide
  · simp [h1, h2, h3] at hb1

/-- Under the contract of the classifier the guard for an unknown type is
dead: once the form file is read, `CreateLink` never answers BadRequest. -/
theorem CreateLink_no_bad_request (L : Libs) (o : Faults) (env : Env) (fs : FS)
    (w : ResponseWriter) (r : Request) (h : FileHeader) (buf : Bytes)
    (hlib : L.MatchNamesImages)
    (hr : r.form = some ⟨h, some buf⟩) :
    ∀ msg, (CreateLink L o env fs w r).err ≠ some (.status ⟨StatusBadRequest, msg⟩) := by
  intro msg
  unfold CreateLink
  simp only [hr]
  generalize env.Transport.Get (L.Sum256 buf) = g
  obtain ⟨e, ge⟩ := g
  simp only
  split
  · simp
  split
  · simp [makeStatusError, StatusUnsupportedMediaType, StatusBadRequest]
  rename_i himg
  have hk : L.Match buf ≠ Unknown := hlib buf (by simpa using himg)
  simp only [hk, if_false]
  split
  · simp [StatusInternalServerError, StatusBadRequest]
  split
  · simp [makeStatusError, StatusRequestEntityTooLarge, StatusBadRequest]
  split
  · simp [StatusInternalServerError, StatusBadRequest]
  split
  · simp [StatusInternalServerError, StatusBadRequest]
  split
  · simp [StatusInternalServerError, StatusBadRequest]
  · simp

/-- Claim C12.  The classifier is h2non/filetype, in which a buffer that
`IsImage` accepts gets a type from `Match`.  For every payload whose
fingerprint has no entry in the store and whose type the classifier reports
as unknown, whether or not it reports an image, `CreateLink` rejects the
upload with UnsupportedMediaType (415), attempts no file write and no store
write, and leaves store and files as they were: such a payload is never
reported as an image, so it is stopped by the image guard and the later guard
for an unknown type (which would answer 400) is not reached. -/
theorem C12_unknown_type_rejected (L : Libs) (o : Faults) (env : Env) (fs : FS)
    (w : ResponseWriter) (r : Request) (h : FileHeader) (buf : Bytes)
    (hlib : L.MatchNamesImages)
    (hr : r.form = some ⟨h, some buf⟩)
    (hnew : env.Transport.Absent (L.Sum256 buf))
    (hkind : L.Match buf = Unknown) :
    L.IsImage buf = false
      ∧ (CreateLink L o env fs w r).err
          = some (.status (makeStatusError StatusUnsupportedMediaType))
      ∧ (CreateLink L o env fs w r).log = []
      ∧ (CreateLink L o env fs w r).env = env
      ∧ (CreateLink L o env fs w r).fs = fs := by
  have himg : L.IsImage buf = false := by
    cases hi : L.IsImage buf with
    | false => rfl
    | true => exact absurd hkind (hlib buf hi)
  have hget := Absent_Get _ _ hnew
  refine ⟨himg, ?_⟩
  simp [CreateLink, hr, hget, himg]

/-- Witness for C12: a text file, whose type the classifier does not know. -/
theorem C12_unknown_type_rejected_witness :
    sampleLibs.MatchNamesImages
      ∧ emptyEnv.Transport.Absent (sampleLibs.Sum256 textHello)
      ∧ sampleLibs.Match textHello = Unknown
      ∧ (CreateLink sampleLibs (noFaults [1, 2, 3]) emptyEnv emptyFS ResponseWriter.fresh
          (upload "hello.txt" textHello)).err
        = some (.status (makeStatusError StatusUnsupportedMediaType))
      ∧ (CreateLink sampleLibs (noFaults [1, 2, 3]) emptyEnv emptyFS ResponseWriter.fresh
          (upload "hello.txt" textHello)).log = [] :=
  have h := C12_unknown_type_rejected sampleLibs (noFaults [1, 2, 3]) emptyEnv emptyFS
    ResponseWriter.fresh (upload "hello.txt" textHello) ⟨"hello.txt"⟩ textHello
    sampleLibs_MatchNamesImages rfl (by decide) (by decide)
  ⟨sampleLibs_MatchNamesImages, by decide, by decide, h.2.1, h.2.2.1⟩

/-! ## Default configuration -/

theorem ParseInt_empty (bitSize : Nat) : ParseInt "" bitSize = (0, some "invalid syntax") := by
  simp [ParseInt]

/-- Counterexample to C13 as stated.  With no environment variable set, the
identifier alphabet `GetConfig` returns has 60 characters, not 59. -/
theorem C13_counterexample :
    noEnvironment "INCOLORE_ID_ALPHABET" = "" ∧ noEnvironment "INCOLORE_ID_LENGTH" = ""
      ∧ (GetConfig noEnvironment).IdAlphabet.length = 60
      ∧ (GetConfig noEnvironment).IdAlphabet.length ≠ 59 := by
  decide

/-- Claim C13 as amended.  When INCOLORE_ID_ALPHABET and INCOLORE_ID_LENGTH are
unset, whatever the other variables, `GetConfig` returns the identifier
alphabet `0123456789abcdefghijkmnopqrstuvwxyzABCDEFGHJKLMNOPQRSTUVWXYZ`, of
exactly 60 characters, and an identifier length of 12. -/
theorem C13_default_alphabet_and_length (Getenv : String → String)
    (halpha : Getenv "INCOLORE_ID_ALPHABET" = "") (hlen : Getenv "INCOLORE_ID_LENGTH" = "") :
    (GetConfig Getenv).IdAlphabet
        = "0123456789abcdefghijkmnopqrstuvwxyzABCDEFGHJKLMNOPQRSTUVWXYZ"
      ∧ (GetConfig Getenv).IdAlphabet.length = 60
      ∧ (GetConfig Getenv).IdLength = 12 := by
  have ha : (GetConfig Getenv).IdAlphabet
      = "0123456789abcdefghijkmnopqrstuvwxyzABCDEFGHJKLMNOPQRSTUVWXYZ" := by
    simp [GetConfig, halpha]
  refine ⟨ha, ?_, ?_⟩
  · rw [ha]; decide
  · simp [GetConfig, hlen, ParseInt_empty]

/-- Witness for C13: the environment in which no variable is set. -/
theorem C13_default_alphabet_and_length_witness :
    noEnvironment "INCOLORE_ID_ALPHABET" = "" ∧ noEnvironment "INCOLORE_ID_LENGTH" = ""
      ∧ (GetConfig noEnvironment).IdAlphabet.length = 60
      ∧ (GetConfig noEnvironment).IdLength = 12 :=
  have h := C13_default_alphabet_and_length noEnvironment rfl rfl
  ⟨rfl, rfl, h.2.1, h.2.2⟩

/-! ## Resolve path: first view -/

/-- The result of `GetIndex` does not depend on the cookies of the request:
the error of `r.Cookie` is replaced by the error of `Transport.Get` before
it is tested. -/
theorem GetIndex_ignores_cookies (L : Libs) (o : Faults) (env : Env) (fs : FS)
    (w : ResponseWriter) (r : Request) (cookies : List String) :
    GetIndex L o env fs w { r with cookies := cookies } = GetIndex L o env fs w r := by
  rfl

/-- Claim C14, evaluated at a failing input.  After the upload of `jpegA` as
`123000000000`, the identifier is resolved once with the `incolore` cookie and
once without it.  Both responses carry the file; the status written is 201
in both cases: the request without the cookie does not get 200. -/
theorem C14_status_created_without_cookie :
    RedirectsTo emptyEnv.Config.ShortenerHostname firstUpload "123000000000"
      ∧ (resolve "123000000000" true).Cookie cookieName = none
      ∧ (resolve "123000000000" false).Cookie cookieName ≠ none
      ∧ (GetIndex sampleLibs (noFaults []) firstUpload.env firstUpload.fs ResponseWriter.fresh
          (resolve "123000000000" true)).w.status = StatusCreated
      ∧ (GetIndex sampleLibs (noFaults []) firstUpload.env firstUpload.fs ResponseWriter.fresh
          (resolve "123000000000" false)).err = none
      ∧ (GetIndex sampleLibs (noFaults []) firstUpload.env firstUpload.fs ResponseWriter.fresh
          (resolve "123000000000" false)).w.body = jpegA
      ∧ (GetIndex sampleLibs (noFaults []) firstUpload.env firstUpload.fs ResponseWriter.fresh
          (resolve "123000000000" false)).w.status = StatusCreated
      ∧ (GetIndex sampleLibs (noFaults []) firstUpload.env firstUpload.fs ResponseWriter.fresh
          (resolve "123000000000" false)).w.status ≠ StatusOK := by
  decide

end Incolore
